import Mathlib

/-!
Verification of the velocity-governor core of `src/main.py` (a TurtleBot3
teleop demo).  Real numbers of the source (Python floats) are embedded as
rationals; every decimal constant of the source is exact in this embedding.
The fallible `check_limit` (whose unknown-kind branch only logs an error and
returns Python `None`) is embedded as an `Option`-valued function.
-/

/-- Maximum linear velocity of the TurtleBot3 Waffle (`WAFFLE_MAX_LIN_VEL`,
main.py line 21). -/
def WAFFLE_MAX_LIN_VEL : ℚ := 0.26

/-- Maximum angular velocity of the TurtleBot3 Waffle (`WAFFLE_MAX_ANG_VEL`,
main.py line 22). -/
def WAFFLE_MAX_ANG_VEL : ℚ := 1.82

/-- Linear velocity increment (`LIN_VEL_STEP_SIZE`, main.py line 25). -/
def LIN_VEL_STEP_SIZE : ℚ := 0.2

/-- Angular velocity increment (`ANG_VEL_STEP_SIZE`, main.py line 26). -/
def ANG_VEL_STEP_SIZE : ℚ := 0.628

/-- Embedding of `constraint(input, min, max)` (main.py lines 43-50): clamp
`input` into `[min, max]`. -/
def constraint (input mn mx : ℚ) : ℚ :=
  if input < mn then mn
  else if input > mx then mx
  else input

/-- Embedding of `check_limit(type_of_velocity, velocity_value, model="waffle")`
(main.py lines 54-60).  The unknown-kind branch of the source logs an error and
falls off the end of the function, returning Python `None`; that is embedded as
`none`.  The `model` parameter is accepted and, as in the source, never read. -/
def check_limit (type_of_velocity : String) (velocity_value : ℚ)
    (model : String := "waffle") : Option ℚ :=
  if type_of_velocity = "angular" then
    some (constraint velocity_value (-WAFFLE_MAX_ANG_VEL) WAFFLE_MAX_ANG_VEL)
  else if type_of_velocity = "linear" then
    some (constraint velocity_value (-WAFFLE_MAX_LIN_VEL) WAFFLE_MAX_LIN_VEL)
  else
    none

/-- Embedding of `make_simple_profile(output, input, slop)` (main.py lines
64-72): move `output` toward `input` by at most `slop`. -/
def make_simple_profile (output input slop : ℚ) : ℚ :=
  if input > output then min input (output + slop)
  else if input < output then max input (output - slop)
  else input

/-- C1: the profiler computes exactly the three-case min/max formula of the
spec: toward a larger target it returns `min target (prev + step)`, toward a
smaller target `max target (prev - step)`, and at the target it returns the
target, for every `prev`, `target` and `step`. -/
theorem make_simple_profile_formula (prev target step : ℚ) :
    (target > prev → make_simple_profile prev target step = min target (prev + step)) ∧
    (target < prev → make_simple_profile prev target step = max target (prev - step)) ∧
    (target = prev → make_simple_profile prev target step = target) := by
  refine ⟨fun h => ?_, fun h => ?_, fun h => ?_⟩
  · simp [make_simple_profile, h]
  · simp [make_simple_profile, h, not_lt.mpr (le_of_lt h)]
  · simp [make_simple_profile, h]

/-- Witness for C1 at `prev = 0`, `target = 1`, `step = 2`. -/
theorem make_simple_profile_formula_witness :
    (1 : ℚ) > 0 ∧ make_simple_profile 0 1 2 = min 1 (0 + 2) :=
  ⟨by norm_num, (make_simple_profile_formula 0 1 2).1 (by norm_num)⟩

/-- C10: `check_limit` does not depend on its `model` parameter: two calls with
the same velocity kind and value but different models return the same result. -/
theorem check_limit_ignores_model (type_of_velocity : String) (velocity_value : ℚ)
    (model₁ model₂ : String) :
    check_limit type_of_velocity velocity_value model₁ =
      check_limit type_of_velocity velocity_value model₂ := rfl

/-- Helper: the `"linear"` branch of `check_limit` reduces to `constraint`
with the linear bounds. -/
theorem check_limit_linear_eq (v : ℚ) (m : String) :
    check_limit "linear" v m =
      some (constraint v (-WAFFLE_MAX_LIN_VEL) WAFFLE_MAX_LIN_VEL) := rfl

/-- Helper: the `"angular"` branch of `check_limit` reduces to `constraint`
with the angular bounds. -/
theorem check_limit_angular_eq (v : ℚ) (m : String) :
    check_limit "angular" v m =
      some (constraint v (-WAFFLE_MAX_ANG_VEL) WAFFLE_MAX_ANG_VEL) := rfl

/-- Helper: `constraint` always lands in `[mn, mx]` (needs `mn ≤ mx`). -/
theorem constraint_mem (v mn mx : ℚ) (h : mn ≤ mx) :
    mn ≤ constraint v mn mx ∧ constraint v mn mx ≤ mx := by
  unfold constraint
  split
  · exact ⟨le_refl mn, h⟩
  · split
    · exact ⟨h, le_refl mx⟩
    · constructor <;> [exact le_of_not_lt (by assumption); exact le_of_not_lt (by assumption)]

/-- Helper: `constraint` is the identity on in-range inputs. -/
theorem constraint_id (v mn mx : ℚ) (h₁ : mn ≤ v) (h₂ : v ≤ mx) :
    constraint v mn mx = v := by
  unfold constraint
  rw [if_neg (not_lt.mpr h₁), if_neg (not_lt.mpr h₂)]

/-- C2: for every input value and both recognized axis kinds, the value the
limiter returns lies in the symmetric bounds of that kind: `[-0.26, 0.26]` for
linear and `[-1.82, 1.82]` for angular. -/
theorem check_limit_in_bounds (v : ℚ) (m : String) (r : ℚ) :
    (check_limit "linear" v m = some r → -(0.26 : ℚ) ≤ r ∧ r ≤ 0.26) ∧
    (check_limit "angular" v m = some r → -(1.82 : ℚ) ≤ r ∧ r ≤ 1.82) := by
  constructor
  · intro h
    have hr : r = constraint v (-WAFFLE_MAX_LIN_VEL) WAFFLE_MAX_LIN_VEL := by
      simpa [check_limit] using h.symm
    have := constraint_mem v (-WAFFLE_MAX_LIN_VEL) WAFFLE_MAX_LIN_VEL
      (by norm_num [WAFFLE_MAX_LIN_VEL])
    rw [hr]
    simpa [WAFFLE_MAX_LIN_VEL] using this
  · intro h
    have hr : r = constraint v (-WAFFLE_MAX_ANG_VEL) WAFFLE_MAX_ANG_VEL := by
      simpa [check_limit] using h.symm
    have := constraint_mem v (-WAFFLE_MAX_ANG_VEL) WAFFLE_MAX_ANG_VEL
      (by norm_num [WAFFLE_MAX_ANG_VEL])
    rw [hr]
    simpa [WAFFLE_MAX_ANG_VEL] using this

/-- Witness for C2 at `v = 1`, `m = "waffle"`, clamped result `0.26`. -/
theorem check_limit_in_bounds_witness :
    -(0.26 : ℚ) ≤ 0.26 ∧ (0.26 : ℚ) ≤ 0.26 :=
  (check_limit_in_bounds 1 "waffle" 0.26).1
    (by rw [check_limit_linear_eq]; norm_num [constraint, WAFFLE_MAX_LIN_VEL])

/-- C9: on every input already inside the bounds of its axis kind the limiter
is the identity: it returns the input unchanged. -/
theorem check_limit_id_in_range (v : ℚ) (m : String) :
    (-WAFFLE_MAX_LIN_VEL ≤ v → v ≤ WAFFLE_MAX_LIN_VEL →
      check_limit "linear" v m = some v) ∧
    (-WAFFLE_MAX_ANG_VEL ≤ v → v ≤ WAFFLE_MAX_ANG_VEL →
      check_limit "angular" v m = some v) := by
  constructor
  · intro h₁ h₂
    simp [check_limit, constraint_id v _ _ h₁ h₂]
  · intro h₁ h₂
    simp [check_limit, constraint_id v _ _ h₁ h₂]

/-- Witness for C9 at `v = 0.1` (inside the linear bounds). -/
theorem check_limit_id_in_range_witness :
    -WAFFLE_MAX_LIN_VEL ≤ (0.1 : ℚ) ∧ (0.1 : ℚ) ≤ WAFFLE_MAX_LIN_VEL ∧
      check_limit "linear" 0.1 "waffle" = some 0.1 := by
  refine ⟨by norm_num [WAFFLE_MAX_LIN_VEL], by norm_num [WAFFLE_MAX_LIN_VEL], ?_⟩
  exact (check_limit_id_in_range 0.1 "waffle").1
    (by norm_num [WAFFLE_MAX_LIN_VEL]) (by norm_num [WAFFLE_MAX_LIN_VEL])

/-- C3: one call to the profiler changes the control value by at most the step:
for positive `step`, `|make_simple_profile prev target step - prev| ≤ step`. -/
theorem make_simple_profile_step_bound (prev target step : ℚ) (h : 0 < step) :
    |make_simple_profile prev target step - prev| ≤ step := by
  unfold make_simple_profile
  split
  · rename_i hgt
    rw [abs_le]
    constructor
    · have : prev ≤ min target (prev + step) := le_min (le_of_lt hgt) (by linarith)
      linarith
    · have : min target (prev + step) ≤ prev + step := min_le_right _ _
      linarith
  · split
    · rename_i hlt
      rw [abs_le]
      constructor
      · have : prev - step ≤ max target (prev - step) := le_max_right _ _
        linarith
      · have : max target (prev - step) ≤ prev := max_le (le_of_lt hlt) (by linarith)
        linarith
    · rename_i h₁ h₂
      have heq : target = prev := le_antisymm (le_of_not_lt h₁) (le_of_not_lt h₂)
      rw [heq, sub_self, abs_zero]
      exact le_of_lt h

/-- Witness for C3 at `prev = 0`, `target = 5`, `step = 2`. -/
theorem make_simple_profile_step_bound_witness :
    (0 : ℚ) < 2 ∧ |make_simple_profile 0 5 2 - 0| ≤ 2 :=
  ⟨by norm_num, make_simple_profile_step_bound 0 5 2 (by norm_num)⟩

/-- C4: for positive `step` the profiler result lies in the closed interval
between `prev` and `target`: it moves toward the target and never overshoots. -/
theorem make_simple_profile_between (prev target step : ℚ) (h : 0 < step) :
    min prev target ≤ make_simple_profile prev target step ∧
      make_simple_profile prev target step ≤ max prev target := by
  unfold make_simple_profile
  split
  · rename_i hgt
    constructor
    · exact le_trans (min_le_left _ _) (le_min (le_of_lt hgt) (by linarith))
    · exact le_trans (min_le_left _ _) (le_max_right _ _)
  · split
    · rename_i hlt
      constructor
      · exact le_trans (min_le_right _ _) (le_max_left _ _)
      · exact le_trans (max_le (le_of_lt hlt) (by linarith)) (le_max_left _ _)
    · rename_i h₁ h₂
      have : target = prev := le_antisymm (le_of_not_lt h₁) (le_of_not_lt h₂)
      subst this
      simp

/-- Witness for C4 at `prev = 0`, `target = 5`, `step = 2`. -/
theorem make_simple_profile_between_witness :
    (0 : ℚ) < 2 ∧ min (0 : ℚ) 5 ≤ make_simple_profile 0 5 2 ∧
      make_simple_profile 0 5 2 ≤ max (0 : ℚ) 5 :=
  ⟨by norm_num, make_simple_profile_between 0 5 2 (by norm_num)⟩

/-- Helper: the profiler fixes its target: a call with `input = output` returns
the value unchanged. -/
theorem make_simple_profile_fixed (x step : ℚ) : make_simple_profile x x step = x := by
  simp [make_simple_profile]

/-- Helper: once the remaining gap is at most the step, one profiler call
reaches the target exactly. -/
theorem make_simple_profile_reach (prev target step : ℚ)
    (h : |target - prev| ≤ step) : make_simple_profile prev target step = target := by
  unfold make_simple_profile
  split
  · rename_i hgt
    rw [abs_of_pos (sub_pos.mpr hgt)] at h
    exact min_eq_left (by linarith)
  · split
    · rename_i hlt
      rw [abs_of_neg (sub_neg.mpr hlt)] at h
      exact max_eq_left (by linarith)
    · rfl

/-- Helper: while the gap exceeds the (positive) step, one profiler call
shrinks the gap by exactly the step. -/
theorem make_simple_profile_progress (prev target step : ℚ) (hs : 0 < step)
    (h : step < |target - prev|) :
    |target - make_simple_profile prev target step| = |target - prev| - step := by
  unfold make_simple_profile
  split
  · rename_i hgt
    rw [abs_of_pos (sub_pos.mpr hgt)] at h ⊢
    rw [min_eq_right (by linarith), abs_of_pos (by linarith)]
    ring
  · split
    · rename_i hlt
      rw [abs_of_neg (sub_neg.mpr hlt)] at h ⊢
      rw [max_eq_right (by linarith), abs_of_neg (by linarith)]
      ring
    · rename_i h₁ h₂
      have heq : target = prev := le_antisymm (le_of_not_lt h₁) (le_of_not_lt h₂)
      rw [heq, sub_self, abs_zero] at h
      exact absurd (lt_trans hs h) (lt_irrefl 0)

/-- Iterating `make_simple_profile` with a fixed target and step, feeding each
result back as the previous control value: the sequence of control values over
successive cycles. -/
def iterate_profile (output input slop : ℚ) : ℕ → ℚ
  | 0 => output
  | n + 1 => make_simple_profile (iterate_profile output input slop n) input slop

/-- Helper: after `n` iterations the control either equals the target or the
gap has shrunk by exactly `n` steps. -/
theorem iterate_profile_invariant (prev target step : ℚ) (hs : 0 < step) (n : ℕ) :
    iterate_profile prev target step n = target ∨
      |target - iterate_profile prev target step n| = |target - prev| - n * step := by
  induction n with
  | zero => right; simp [iterate_profile]
  | succ n ih =>
    rcases ih with h | h
    · left
      simp only [iterate_profile, h]
      exact make_simple_profile_fixed target step
    · by_cases hle : |target - iterate_profile prev target step n| ≤ step
      · left
        simp only [iterate_profile]
        exact make_simple_profile_reach _ _ _ hle
      · right
        simp only [iterate_profile]
        rw [make_simple_profile_progress _ _ _ hs (lt_of_not_le hle), h]
        push_cast
        ring

/-- C5: iterating the profiler with a fixed target and fixed positive step
reaches exactly the target after at most the ceiling of gap divided by step
calls, and every later call returns the target unchanged. -/
theorem make_simple_profile_converges (prev target step : ℚ) (hs : 0 < step)
    (n : ℕ) (hn : (⌈|target - prev| / step⌉).toNat ≤ n) :
    iterate_profile prev target step n = target := by
  rcases iterate_profile_invariant prev target step hs n with h | h
  · exact h
  · have h₁ : |target - prev| / step ≤ (⌈|target - prev| / step⌉ : ℚ) := Int.le_ceil _
    have h₂ : (⌈|target - prev| / step⌉ : ℚ) ≤ (n : ℚ) := by
      have h₀ := Int.self_le_toNat ⌈|target - prev| / step⌉
      have h₃ : (⌈|target - prev| / step⌉ : ℤ) ≤ (n : ℤ) :=
        le_trans h₀ (by exact_mod_cast hn)
      exact_mod_cast h₃
    have h₄ : |target - prev| ≤ (n : ℚ) * step := by
      have := (div_le_iff₀ hs).mp (le_trans h₁ h₂)
      linarith
    have h₅ : |target - iterate_profile prev target step n| = 0 :=
      le_antisymm (by rw [h]; linarith) (abs_nonneg _)
    have h₆ := abs_eq_zero.mp h₅
    linarith [h₆]

/-- Witness for C5 at `prev = 0`, `target = 1`, `step = 1`, `n = 1`. -/
theorem make_simple_profile_converges_witness :
    (0 : ℚ) < 1 ∧ (⌈|(1 : ℚ) - 0| / 1⌉).toNat ≤ 1 ∧ iterate_profile 0 1 1 1 = 1 :=
  ⟨by norm_num, by norm_num,
    make_simple_profile_converges 0 1 1 (by norm_num) 1 (by norm_num)⟩

/-- C7: calling `check_limit` with an axis kind outside the recognized set —
here `"vertical"` — produces no clamped value at all: the source only logs an
error message and falls off the end of the function, returning Python `None`
(embedded as `none`) instead of raising a fatal contract violation. -/
theorem check_limit_unknown_kind : check_limit "vertical" 1 "waffle" = none := rfl

/-- Counterexample for C8: the profiler does not reject a non-positive step: it
returns plain values, `0` for `make_simple_profile 0 1 0` and `-1` for
`make_simple_profile 0 1 (-1)` (the embedding is a total function because the
source function has no error path at all). -/
theorem make_simple_profile_no_rejection :
    make_simple_profile 0 1 0 = 0 ∧ make_simple_profile 0 1 (-1) = -1 := by
  constructor <;> norm_num [make_simple_profile]

/-- C8 as amended: the profiler performs no validation of the step argument;
in particular with a zero step it returns the previous control value unchanged
for every input, rather than failing. -/
theorem make_simple_profile_zero_step (prev target : ℚ) :
    make_simple_profile prev target 0 = prev := by
  unfold make_simple_profile
  split
  · rename_i h
    rw [add_zero]
    exact min_eq_right (le_of_lt h)
  · split
    · rename_i h
      rw [sub_zero]
      exact max_eq_right (le_of_lt h)
    · rename_i h₁ h₂
      exact le_antisymm (le_of_not_lt h₁) (le_of_not_lt h₂)

/-- The state of `main` (main.py lines 88-92): the four velocity variables,
together with the log of every `(linear.x, angular.z)` pair handed to
`pub.publish` so far.  All other twist components are always `0.0` in the
source and are not tracked. -/
structure LoopState where
  target_linear_velocity : ℚ
  target_angular_velocity : ℚ
  control_linear_velocity : ℚ
  control_angular_velocity : ℚ
  published : List (ℚ × ℚ)

/-- Embedding of one iteration of the command loop of `main` (main.py lines
125-202): dispatch on the command string, then run `make_simple_profile` on
both axes with half the step sizes and publish the two control values.  The
`Option.getD _ 0` extractions are unreachable defaults: the kind strings are
the literals `"linear"` and `"angular"`, for which `check_limit` always
returns `some` (`check_limit_linear_eq`, `check_limit_angular_eq`). -/
def cycle (s : LoopState) (command : String) : LoopState :=
  let s₁ :=
    if command = "Straight" then
      { s with
        target_linear_velocity :=
          (check_limit "linear" (s.target_linear_velocity + LIN_VEL_STEP_SIZE) "waffle").getD 0 }
    else if command = "Back" then
      { s with
        target_linear_velocity :=
          (check_limit "linear" (0 - LIN_VEL_STEP_SIZE) "waffle").getD 0,
        control_linear_velocity := 0,
        target_angular_velocity := 0,
        control_angular_velocity := 0 }
    else if command = "Left" then
      { s with
        target_angular_velocity :=
          (check_limit "angular" (0 + ANG_VEL_STEP_SIZE) "waffle").getD 0,
        control_angular_velocity := 0 }
    else if command = "Right" then
      { s with
        target_angular_velocity :=
          (check_limit "angular" (0 - ANG_VEL_STEP_SIZE) "waffle").getD 0,
        control_angular_velocity := 0 }
    else if command = "Stop" then
      { s with
        target_linear_velocity := 0, control_linear_velocity := 0,
        target_angular_velocity := 0, control_angular_velocity := 0 }
    else s
  let cl := make_simple_profile s₁.control_linear_velocity s₁.target_linear_velocity
      (LIN_VEL_STEP_SIZE / 2)
  let ca := make_simple_profile s₁.control_angular_velocity s₁.target_angular_velocity
      (ANG_VEL_STEP_SIZE / 2)
  { s₁ with
    control_linear_velocity := cl,
    control_angular_velocity := ca,
    published := s₁.published ++ [(cl, ca)] }

/-- The initial state of `main` (main.py lines 89-92): all four velocity
variables start at `0.0`, nothing published yet. -/
def initState : LoopState :=
  { target_linear_velocity := 0, target_angular_velocity := 0,
    control_linear_velocity := 0, control_angular_velocity := 0, published := [] }

/-- Run the command loop of `main` over a list of command strings. -/
def runCommands (s : LoopState) (commands : List String) : LoopState :=
  commands.foldl cycle s

/-- Embedding of the `finally` block of `main` (main.py lines 208-222): build a
fresh all-zero twist and publish it.  The four velocity variables of `main` are
not touched by this block. -/
def shutdown (s : LoopState) : LoopState :=
  { s with published := s.published ++ [(0, 0)] }

/-- Counterexample for C6: after the single cycle `"Straight"`, the shutdown
path publishes the final zero command but leaves `target_linear_velocity` at
`0.2`, not `0`: the `finally` block never resets the target and control
variables. -/
theorem shutdown_reset_counterexample :
    (shutdown (runCommands initState ["Straight"])).target_linear_velocity = 0.2 ∧
      (0.2 : ℚ) ≠ 0 := by
  constructor
  · simp only [runCommands, List.foldl_cons, List.foldl_nil, cycle, shutdown,
      check_limit_linear_eq, Option.getD_some, if_pos, if_neg]
    norm_num [initState, constraint, WAFFLE_MAX_LIN_VEL, LIN_VEL_STEP_SIZE]
  · norm_num

/-- C6 as amended: after any sequence of cycles, shutdown emits exactly one
additional command, the zero command, and it is the last command emitted; the
target and control variables keep their pre-shutdown values — they are not
reset to zero. -/
theorem shutdown_emits_final_zero (commands : List String) :
    (shutdown (runCommands initState commands)).published =
        (runCommands initState commands).published ++ [(0, 0)] ∧
    (shutdown (runCommands initState commands)).published.getLast? = some (0, 0) ∧
    (shutdown (runCommands initState commands)).target_linear_velocity =
        (runCommands initState commands).target_linear_velocity ∧
    (shutdown (runCommands initState commands)).target_angular_velocity =
        (runCommands initState commands).target_angular_velocity ∧
    (shutdown (runCommands initState commands)).control_linear_velocity =
        (runCommands initState commands).control_linear_velocity ∧
    (shutdown (runCommands initState commands)).control_angular_velocity =
        (runCommands initState commands).control_angular_velocity := by
  refine ⟨rfl, ?_, rfl, rfl, rfl, rfl⟩
  simp [shutdown]
